import Mathlib

/-!
Shallow embedding of the `WebSocketApiStack` CDK construct
(`lib/websocket-api-stack.ts`).  The construct is a one-shot, synchronous,
side-effect-free composition: given an account, a region and an optional
props record it declares a resource graph (VPC, S3 bucket, IAM role,
security groups, EC2 instance with a user-data bootstrap script, ALB,
target group, listener, outputs).  We model that composition as a pure
function `mkWebSocketApiStack : String → String → Option StackProps → Stack`
whose fields mirror the construct-creation calls one for one.
-/

namespace WebSocketInfra

/-- Seconds denoted by `cdk.Duration.seconds n`. -/
def durationSeconds (n : Nat) : Nat := n

/-- Seconds denoted by `cdk.Duration.hours n`. -/
def durationHours (n : Nat) : Nat := n * 3600

/-- Days denoted by `cdk.Duration.days n`. -/
def durationDays (n : Nat) : Nat := n

/-- The optional `WebSocketApiStackProps` record.  The EC2 instance type is
modelled by its name string (default `t3.small`). -/
structure StackProps where
  environmentName : Option String
  instanceType : Option String
  createVpc : Option Bool
  vpcId : Option String
deriving DecidableEq

/-- JavaScript truthiness of an optional string: `undefined` and the empty
string are falsy, every other string is truthy. -/
def truthyString : Option String → Bool
  | none => false
  | some s => !(s == "")

/-- JavaScript `v || dflt` for an optional string value. -/
def orDefaultString (v : Option String) (dflt : String) : String :=
  match v with
  | none => dflt
  | some s => if s == "" then dflt else s

/-- `props?.environmentName || 'dev'`. -/
def envNameOf (props : Option StackProps) : String :=
  match props with
  | none => "dev"
  | some p => orDefaultString p.environmentName "dev"

/-- `props?.instanceType || t3.small` (an instance-type object is always
truthy, so only `undefined` falls back to the default). -/
def instanceTypeOf (props : Option StackProps) : String :=
  match props with
  | none => "t3.small"
  | some p => p.instanceType.getD "t3.small"

/-- Subnet classifications used by the stack. -/
inductive SubnetType where
  | PUBLIC
  | PRIVATE_WITH_EGRESS
deriving DecidableEq

/-- The source of a security-group ingress rule: either the open internet
(`ec2.Peer.anyIpv4()`) or a reference to another security group of the
stack, identified by its construct id. -/
inductive Peer where
  | anyIpv4
  | securityGroupRef (constructId : String)
deriving DecidableEq

/-- One `addIngressRule(source, ec2.Port.tcp(port), description)` call. -/
structure IngressRule where
  source : Peer
  port : Nat
  description : String
deriving DecidableEq

/-- An `ec2.SecurityGroup` together with its accumulated ingress rules. -/
structure SecurityGroup where
  securityGroupName : String
  description : String
  allowAllOutbound : Bool
  ingressRules : List IngressRule
deriving DecidableEq

/-- One entry of a VPC `subnetConfiguration`. -/
structure SubnetConfig where
  cidrMask : Nat
  name : String
  subnetType : SubnetType
deriving DecidableEq

/-- The VPC of the stack: either resolved by lookup from an external id, or
declared fresh with its configuration. -/
inductive VpcDef where
  | fromLookup (vpcId : String)
  | newVpc (vpcName : String) (maxAzs : Nat) (natGateways : Nat)
      (subnetConfiguration : List SubnetConfig)
deriving DecidableEq

/-- Removal policy of the deployment bucket. -/
inductive RemovalPolicy where
  | RETAIN
  | DESTROY
deriving DecidableEq

/-- One lifecycle rule of the deployment bucket. -/
structure LifecycleRule where
  id : String
  enabled : Bool
  expirationDays : Nat
deriving DecidableEq

/-- The `s3.Bucket` declaration. -/
structure BucketDef where
  bucketName : String
  removalPolicy : RemovalPolicy
  encryption : String
  blockPublicAccess : String
  versioned : Bool
  lifecycleRules : List LifecycleRule
deriving DecidableEq

/-- The `iam.Role` declaration for the EC2 instance. -/
structure RoleDef where
  roleName : String
  assumedBy : String
  managedPolicies : List String
  description : String
deriving DecidableEq

/-- One bucket grant call, such as `deploymentBucket.grantRead(ec2Role)`:
which bucket, which grantee, and the access level granted. -/
structure BucketGrant where
  bucket : String
  grantee : String
  access : String
deriving DecidableEq

/-- A capability attached to the compute identity: either an AWS managed
policy or a bucket access grant. -/
inductive Capability where
  | managedPolicy (policyName : String)
  | bucketAccess (bucket : String) (access : String)
deriving DecidableEq

/-- `ASPNETCORE_ENVIRONMENT` value injected into the systemd unit:
`envName === 'prod' ? 'Production' : 'Development'`. -/
def aspnetcoreEnvironment (envName : String) : String :=
  if envName == "prod" then "Production" else "Development"

/-- The exact sequence of lines passed to `userData.addCommands`, one Lean
string per TypeScript string argument.  Literal braces of the embedded
nginx configuration are written with their character escapes. -/
def userDataCommands (envName : String) : List String :=
  [ "#!/bin/bash",
    "set -e",
    "exec > >(tee /var/log/user-data.log)",
    "exec 2>&1",
    "",
    "echo \"Starting WebSocket API setup at $(date)\"",
    "",
    "# Update system",
    "apt-get update -y",
    "apt-get upgrade -y",
    "",
    "# Install dependencies",
    "apt-get install -y awscli unzip nginx curl",
    "",
    "# Install .NET 8 Runtime",
    "wget https://dot.net/v1/dotnet-install.sh -O /tmp/dotnet-install.sh",
    "chmod +x /tmp/dotnet-install.sh",
    "/tmp/dotnet-install.sh --channel 8.0 --install-dir /usr/share/dotnet",
    "ln -sf /usr/share/dotnet/dotnet /usr/bin/dotnet",
    "",
    "# Verify .NET installation",
    "dotnet --version",
    "",
    "# Create application directory",
    "mkdir -p /var/www/websocketapi",
    "chown -R www-data:www-data /var/www/websocketapi",
    "",
    "# Create systemd service",
    "cat > /etc/systemd/system/websocketapi.service <<\x27EOF\x27",
    "[Unit]",
    "Description=WebSocket API .NET Application",
    "After=network.target",
    "",
    "[Service]",
    "Type=notify",
    "WorkingDirectory=/var/www/websocketapi",
    "ExecStart=/usr/bin/dotnet /var/www/websocketapi/WebSocketApi.dll",
    "Restart=always",
    "RestartSec=10",
    "KillSignal=SIGINT",
    "SyslogIdentifier=websocketapi",
    "User=www-data",
    "Environment=ASPNETCORE_ENVIRONMENT=" ++ aspnetcoreEnvironment envName,
    "Environment=ASPNETCORE_URLS=http://0.0.0.0:5000",
    "",
    "[Install]",
    "WantedBy=multi-user.target",
    "EOF",
    "",
    "systemctl daemon-reload",
    "systemctl enable websocketapi",
    "",
    "# Configure Nginx as reverse proxy",
    "cat > /etc/nginx/sites-available/websocketapi <<\x27EOF\x27",
    "upstream websocketapi \x7b",
    "    server 127.0.0.1:5000;",
    "\x7d",
    "",
    "server \x7b",
    "    listen 80 default_server;",
    "    server_name _;",
    "",
    "    location / \x7b",
    "        proxy_pass http://websocketapi;",
    "        proxy_http_version 1.1;",
    "        proxy_set_header Upgrade $http_upgrade;",
    "        proxy_set_header Connection \"upgrade\";",
    "        proxy_set_header Host $host;",
    "        proxy_set_header X-Real-IP $remote_addr;",
    "        proxy_set_header X-Forwarded-For $proxy_add_x_forwarded_for;",
    "        proxy_set_header X-Forwarded-Proto $scheme;",
    "        proxy_cache_bypass $http_upgrade;",
    "        proxy_read_timeout 300s;",
    "        proxy_connect_timeout 75s;",
    "    \x7d",
    "",
    "    location /ws \x7b",
    "        proxy_pass http://websocketapi/ws;",
    "        proxy_http_version 1.1;",
    "        proxy_set_header Upgrade $http_upgrade;",
    "        proxy_set_header Connection \"upgrade\";",
    "        proxy_set_header Host $host;",
    "        proxy_set_header X-Real-IP $remote_addr;",
    "        proxy_set_header X-Forwarded-For $proxy_add_x_forwarded_for;",
    "        proxy_set_header X-Forwarded-Proto $scheme;",
    "        proxy_read_timeout 86400;",
    "    \x7d",
    "",
    "    location /health \x7b",
    "        proxy_pass http://websocketapi/health;",
    "        access_log off;",
    "    \x7d",
    "\x7d",
    "EOF",
    "",
    "ln -sf /etc/nginx/sites-available/websocketapi /etc/nginx/sites-enabled/",
    "rm -f /etc/nginx/sites-enabled/default",
    "",
    "nginx -t",
    "systemctl restart nginx",
    "",
    "echo \"WebSocket API setup completed at $(date)\"" ]

/-- One block device mapping of the instance. -/
structure BlockDevice where
  deviceName : String
  volumeGiB : Nat
  volumeType : String
  encrypted : Bool
deriving DecidableEq

/-- The `ec2.Instance` declaration. -/
structure InstanceDef where
  vpcSubnetType : SubnetType
  instanceType : String
  machineImageSsmParameter : String
  securityGroup : String
  role : String
  userData : List String
  blockDevices : List BlockDevice
deriving DecidableEq

/-- The `elbv2.ApplicationLoadBalancer` declaration. -/
structure AlbDef where
  internetFacing : Bool
  loadBalancerName : String
  securityGroup : String
  vpcSubnetType : SubnetType
deriving DecidableEq

/-- The target group's health-check policy. -/
structure HealthCheckDef where
  enabled : Bool
  path : String
  protocol : String
  intervalSeconds : Nat
  timeoutSeconds : Nat
  healthyThresholdCount : Nat
  unhealthyThresholdCount : Nat
  healthyHttpCodes : String
deriving DecidableEq

/-- The `elbv2.ApplicationTargetGroup` declaration, including the two
`setAttribute` calls recorded in order. -/
structure TargetGroupDef where
  port : Nat
  protocol : String
  targetGroupName : String
  targetInstance : String
  targetPort : Nat
  healthCheck : HealthCheckDef
  deregistrationDelaySeconds : Nat
  stickinessCookieDurationSeconds : Nat
  attributes : List (String × String)
deriving DecidableEq

/-- The ALB listener declaration. -/
structure ListenerDef where
  port : Nat
  protocol : String
  defaultTargetGroup : String
deriving DecidableEq

/-- The value of a `CfnOutput`: either a reference to a provisioned
attribute (unknown at composition time) or a literal string. -/
inductive OutputValue where
  | albDnsName
  | wsUrl
  | healthCheckUrl
  | bucketName
  | instanceId
  | literal (value : String)
  | vpcIdRef
deriving DecidableEq

/-- One `cdk.CfnOutput` declaration. -/
structure CfnOutput where
  constructId : String
  value : OutputValue
  description : String
  exportName : Option String
deriving DecidableEq

/-- The whole resource graph declared by the stack constructor. -/
structure Stack where
  vpc : VpcDef
  deploymentBucket : BucketDef
  ec2Role : RoleDef
  bucketGrants : List BucketGrant
  albSecurityGroup : SecurityGroup
  ec2SecurityGroup : SecurityGroup
  userData : List String
  computeInstance : InstanceDef
  instanceTags : List (String × String)
  alb : AlbDef
  targetGroup : TargetGroupDef
  listener : ListenerDef
  outputs : List CfnOutput
deriving DecidableEq

/-- Subnet configuration of a freshly created VPC. -/
def newVpcSubnetConfiguration : List SubnetConfig :=
  [ { cidrMask := 24, name := "Public", subnetType := SubnetType.PUBLIC },
    { cidrMask := 24, name := "Private", subnetType := SubnetType.PRIVATE_WITH_EGRESS } ]

/-- The `WebSocketApiStack` constructor body, construct by construct. -/
def mkWebSocketApiStack (account region : String) (props : Option StackProps) : Stack :=
  let envName := envNameOf props
  let instanceType := instanceTypeOf props
  let vpc : VpcDef :=
    if ((props.bind fun p => p.createVpc) == some false
        && truthyString (props.bind fun p => p.vpcId)) then
      VpcDef.fromLookup ((props.bind fun p => p.vpcId).getD "")
    else
      VpcDef.newVpc ("websocket-api-vpc-" ++ envName) 2 1 newVpcSubnetConfiguration
  let deploymentBucket : BucketDef :=
    { bucketName := "websocket-api-deployments-" ++ envName ++ "-" ++ account
      removalPolicy := RemovalPolicy.RETAIN
      encryption := "S3_MANAGED"
      blockPublicAccess := "BLOCK_ALL"
      versioned := false
      lifecycleRules := [{ id := "DeleteOldDeployments", enabled := true,
                           expirationDays := durationDays 30 }] }
  let ec2Role : RoleDef :=
    { roleName := "websocket-api-ec2-role-" ++ envName
      assumedBy := "ec2.amazonaws.com"
      managedPolicies := ["AmazonSSMManagedInstanceCore", "CloudWatchAgentServerPolicy"]
      description := "IAM role for WebSocket API EC2 instance" }
  let bucketGrants : List BucketGrant :=
    [{ bucket := "DeploymentBucket", grantee := "EC2Role", access := "read" }]
  let albSecurityGroup : SecurityGroup :=
    { securityGroupName := "websocket-api-alb-sg-" ++ envName
      description := "Security group for WebSocket API ALB"
      allowAllOutbound := true
      ingressRules :=
        [ { source := Peer.anyIpv4, port := 80,
            description := "Allow HTTP traffic from anywhere" },
          { source := Peer.anyIpv4, port := 443,
            description := "Allow HTTPS traffic from anywhere" } ] }
  let ec2SecurityGroup : SecurityGroup :=
    { securityGroupName := "websocket-api-ec2-sg-" ++ envName
      description := "Security group for WebSocket API EC2 instance"
      allowAllOutbound := true
      ingressRules :=
        [ { source := Peer.securityGroupRef "ALBSecurityGroup", port := 80,
            description := "Allow traffic from ALB" },
          { source := Peer.securityGroupRef "ALBSecurityGroup", port := 5000,
            description := "Allow traffic from ALB to app port" } ] }
  let userData := userDataCommands envName
  let computeInstance : InstanceDef :=
    { vpcSubnetType := SubnetType.PRIVATE_WITH_EGRESS
      instanceType := instanceType
      machineImageSsmParameter :=
        "/aws/service/canonical/ubuntu/server/22.04/stable/current/amd64/hvm/ebs-gp2/ami-id"
      securityGroup := "EC2SecurityGroup"
      role := "EC2Role"
      userData := userData
      blockDevices := [{ deviceName := "/dev/sda1", volumeGiB := 20,
                         volumeType := "GP3", encrypted := true }] }
  let instanceTags : List (String × String) :=
    [("Name", "WebSocketApi"), ("Environment", envName), ("ManagedBy", "CDK")]
  let alb : AlbDef :=
    { internetFacing := true
      loadBalancerName := "websocket-api-alb-" ++ envName
      securityGroup := "ALBSecurityGroup"
      vpcSubnetType := SubnetType.PUBLIC }
  let targetGroup : TargetGroupDef :=
    { port := 80
      protocol := "HTTP"
      targetGroupName := "websocket-api-tg-" ++ envName
      targetInstance := "WebSocketApiInstance"
      targetPort := 80
      healthCheck :=
        { enabled := true
          path := "/health"
          protocol := "HTTP"
          intervalSeconds := durationSeconds 30
          timeoutSeconds := durationSeconds 5
          healthyThresholdCount := 2
          unhealthyThresholdCount := 3
          healthyHttpCodes := "200" }
      deregistrationDelaySeconds := durationSeconds 30
      stickinessCookieDurationSeconds := durationHours 1
      attributes := [("stickiness.enabled", "true"), ("stickiness.type", "lb_cookie")] }
  let listener : ListenerDef :=
    { port := 80, protocol := "HTTP", defaultTargetGroup := "TargetGroup" }
  let outputs : List CfnOutput :=
    [ { constructId := "ALBDnsName", value := OutputValue.albDnsName,
        description := "Application Load Balancer DNS Name",
        exportName := some ("WebSocketApi-ALB-DNS-" ++ envName) },
      { constructId := "WebSocketURL", value := OutputValue.wsUrl,
        description := "WebSocket Connection URL",
        exportName := some ("WebSocketApi-WS-URL-" ++ envName) },
      { constructId := "HealthCheckURL", value := OutputValue.healthCheckUrl,
        description := "Health Check URL", exportName := none },
      { constructId := "DeploymentBucket", value := OutputValue.bucketName,
        description := "S3 Deployment Bucket Name",
        exportName := some ("WebSocketApi-Bucket-" ++ envName) },
      { constructId := "InstanceId", value := OutputValue.instanceId,
        description := "EC2 Instance ID", exportName := none },
      { constructId := "InstanceTag", value := OutputValue.literal "WebSocketApi",
        description := "EC2 Instance Name Tag (for GitHub Actions)",
        exportName := some ("WebSocketApi-InstanceTag-" ++ envName) },
      { constructId := "VpcId", value := OutputValue.vpcIdRef,
        description := "VPC ID", exportName := none } ]
  { vpc := vpc
    deploymentBucket := deploymentBucket
    ec2Role := ec2Role
    bucketGrants := bucketGrants
    albSecurityGroup := albSecurityGroup
    ec2SecurityGroup := ec2SecurityGroup
    userData := userData
    computeInstance := computeInstance
    instanceTags := instanceTags
    alb := alb
    targetGroup := targetGroup
    listener := listener
    outputs := outputs }

/-- All capability grants carried by the compute identity: its managed
policies plus every bucket grant whose grantee is the EC2 role. -/
def computeIdentityCapabilities (s : Stack) : List Capability :=
  s.ec2Role.managedPolicies.map Capability.managedPolicy ++
    (s.bucketGrants.filter (fun g => g.grantee == "EC2Role")).map
      (fun g => Capability.bucketAccess g.bucket g.access)

/-- The body of a `location <route>` block of the rendered nginx
configuration: the lines after the opening of the block, up to (and not
including) its closing brace line. -/
def locationBlock (route : String) (cmds : List String) : List String :=
  (((cmds.dropWhile (fun l => l != "    location " ++ route ++ " \x7b")).drop 1).takeWhile
    (fun l => l != "    \x7d"))

/-- Prefix test on strings, computed structurally on the character lists
(the semantics of `String.startsWith`). -/
def strStartsWith (s pre : String) : Bool :=
  pre.data.isPrefixOf s.data

/-- All `proxy_read_timeout` directive lines of a location block. -/
def readTimeoutDirectives (block : List String) : List String :=
  block.filter (fun l => strStartsWith l "        proxy_read_timeout")

set_option maxRecDepth 10000

/-- The rendered user data of the stack is the command list for the
resolved environment name. -/
theorem stack_userData (account region : String) (props : Option StackProps) :
    (mkWebSocketApiStack account region props).userData
      = userDataCommands (envNameOf props) := rfl

/-- C1: for every environment (and all other props), the long-lived `/ws`
route of the generated nginx reverse-proxy configuration carries exactly
one read-timeout directive, and it is `proxy_read_timeout 86400;`; the
right-hand side is a constant, so the value does not depend on the
Environment parameter. -/
theorem C1_ws_route_read_timeout (account region : String) (props : Option StackProps) :
    readTimeoutDirectives
        (locationBlock "/ws" (mkWebSocketApiStack account region props).userData)
      = ["        proxy_read_timeout 86400;"] := by
  rw [stack_userData]
  cases h : (envNameOf props == "prod") <;>
    simp only [userDataCommands, aspnetcoreEnvironment, h] <;> decide

/-- C2: for every environment (and all other props), the target group has
stickiness enabled with the load-balancer-generated (signed) affinity
cookie, and the cookie expiry is exactly one hour (3600 seconds). -/
theorem C2_stickiness_policy (account region : String) (props : Option StackProps) :
    (mkWebSocketApiStack account region props).targetGroup.attributes
        = [("stickiness.enabled", "true"), ("stickiness.type", "lb_cookie")]
      ∧ (mkWebSocketApiStack account region props).targetGroup.stickinessCookieDurationSeconds
        = 3600 :=
  ⟨rfl, rfl⟩

/-- C3 counterexample: at a concrete input (dev environment), the compute
identity carries three capability grants, not two: besides the
remote-session managed policy and the read-only bucket grant it also
carries the `CloudWatchAgentServerPolicy` monitoring capability, which is
neither of the two grants the claim allows. -/
theorem C3_counterexample :
    (computeIdentityCapabilities (mkWebSocketApiStack "123456789012" "us-east-1"
        (some (StackProps.mk (some "dev") none none none)))).length ≠ 2
    ∧ Capability.managedPolicy "CloudWatchAgentServerPolicy"
        ∈ computeIdentityCapabilities (mkWebSocketApiStack "123456789012" "us-east-1"
            (some (StackProps.mk (some "dev") none none none))) := by
  constructor
  · decide
  · decide

/-- C3 amended: for every environment (and all other props), the compute
identity carries exactly three capability grants — the remote-session
managed policy, the CloudWatch monitoring-agent managed policy, and
read-only access to the deployment artifact store; in particular the only
bucket access granted is `read`, so no write or delete capability on the
store is ever granted. -/
theorem C3_amended_capabilities (account region : String) (props : Option StackProps) :
    computeIdentityCapabilities (mkWebSocketApiStack account region props)
      = [ Capability.managedPolicy "AmazonSSMManagedInstanceCore",
          Capability.managedPolicy "CloudWatchAgentServerPolicy",
          Capability.bucketAccess "DeploymentBucket" "read" ] := rfl

/-- C4: for every environment (and all other props), every ingress rule of
the compute security group names the ALB security group as its source
(hence none has the any-IPv4 source), while the ALB security group has
any-IPv4 ingress rules for port 80 and for port 443. -/
theorem C4_permission_edges (account region : String) (props : Option StackProps) :
    ((mkWebSocketApiStack account region props).ec2SecurityGroup.ingressRules.all
        (fun rule => rule.source == Peer.securityGroupRef "ALBSecurityGroup")) = true
      ∧ ((mkWebSocketApiStack account region props).ec2SecurityGroup.ingressRules.all
        (fun rule => !(rule.source == Peer.anyIpv4))) = true
      ∧ ((mkWebSocketApiStack account region props).albSecurityGroup.ingressRules.any
        (fun rule => rule.source == Peer.anyIpv4 && rule.port == 80)) = true
      ∧ ((mkWebSocketApiStack account region props).albSecurityGroup.ingressRules.any
        (fun rule => rule.source == Peer.anyIpv4 && rule.port == 443)) = true := by
  exact ⟨rfl, rfl, rfl, rfl⟩

/-- C5: for every environment (and all other props), the compute instance
is placed in the private-with-egress subnet selection and the ALB in the
public one; the instance's placement is never the public segment. -/
theorem C5_subnet_placement (account region : String) (props : Option StackProps) :
    (mkWebSocketApiStack account region props).computeInstance.vpcSubnetType
        = SubnetType.PRIVATE_WITH_EGRESS
      ∧ (mkWebSocketApiStack account region props).alb.vpcSubnetType = SubnetType.PUBLIC
      ∧ (mkWebSocketApiStack account region props).computeInstance.vpcSubnetType
        ≠ SubnetType.PUBLIC :=
  ⟨rfl, rfl, fun h => SubnetType.noConfusion h⟩

/-- C6: for every environment (and all other props), the target group's
health check probes `/health` every 30 seconds with a 5-second per-probe
timeout, admits a backend after exactly 2 consecutive successes, and
evicts it after exactly 3 consecutive failures. -/
theorem C6_health_check_policy (account region : String) (props : Option StackProps) :
    (mkWebSocketApiStack account region props).targetGroup.healthCheck
      = HealthCheckDef.mk true "/health" "HTTP" 30 5 2 3 "200" :=
  rfl

/-- C7: for every environment (and all other props), the restart directives
of the generated supervision unit are exactly `Restart=always` (restart on
any exit) and `RestartSec=10` (fixed delay); the right-hand side is a
constant, so neither varies with the Environment. -/
theorem C7_restart_policy (account region : String) (props : Option StackProps) :
    ((mkWebSocketApiStack account region props).userData.filter
        (fun l => strStartsWith l "Restart"))
      = ["Restart=always", "RestartSec=10"] := by
  rw [stack_userData]
  cases h : (envNameOf props == "prod") <;>
    simp only [userDataCommands, aspnetcoreEnvironment, h] <;> decide

/-- C8: for every environment (and all other props), the generated host
configuration satisfies the fixed bit-relevant contract: the supervision
unit is named `websocketapi` and launches
`/var/www/websocketapi/WebSocketApi.dll`, the service listens on
`0.0.0.0:5000`, the reverse proxy declares the default `/` route, the
`/ws` route and the `/health` route with request logging suppressed on
`/health`, the script logs to `/var/log/user-data.log`, and the execution
mode flag is `Production` exactly when the environment is `prod` and
`Development` otherwise. -/
theorem C8_host_configuration_contract (account region : String) (props : Option StackProps) :
    ("cat > /etc/systemd/system/websocketapi.service <<\x27EOF\x27"
        ∈ (mkWebSocketApiStack account region props).userData
      ∧ "SyslogIdentifier=websocketapi" ∈ (mkWebSocketApiStack account region props).userData
      ∧ "systemctl enable websocketapi" ∈ (mkWebSocketApiStack account region props).userData)
    ∧ "ExecStart=/usr/bin/dotnet /var/www/websocketapi/WebSocketApi.dll"
        ∈ (mkWebSocketApiStack account region props).userData
    ∧ "Environment=ASPNETCORE_URLS=http://0.0.0.0:5000"
        ∈ (mkWebSocketApiStack account region props).userData
    ∧ ("    listen 80 default_server;" ∈ (mkWebSocketApiStack account region props).userData
      ∧ "    location / \x7b" ∈ (mkWebSocketApiStack account region props).userData)
    ∧ "    location /ws \x7b" ∈ (mkWebSocketApiStack account region props).userData
    ∧ ("    location /health \x7b" ∈ (mkWebSocketApiStack account region props).userData
      ∧ "        access_log off;"
          ∈ locationBlock "/health" (mkWebSocketApiStack account region props).userData)
    ∧ "exec > >(tee /var/log/user-data.log)"
        ∈ (mkWebSocketApiStack account region props).userData
    ∧ ((mkWebSocketApiStack account region props).userData.filter
          (fun l => strStartsWith l "Environment=ASPNETCORE_ENVIRONMENT="))
        = [if envNameOf props == "prod" then "Environment=ASPNETCORE_ENVIRONMENT=Production"
           else "Environment=ASPNETCORE_ENVIRONMENT=Development"] := by
  rw [stack_userData]
  cases h : (envNameOf props == "prod") <;>
    simp only [userDataCommands, aspnetcoreEnvironment, h] <;> decide

/-- C9: the composition is deterministic — two evaluations on identical
inputs (same account, region and props) declare identical resource
graphs.  This holds because the embedded composition is a total pure
function of its inputs, mirroring the synchronous, side-effect-free
constructor. -/
theorem C9_deterministic (account₁ region₁ : String) (props₁ : Option StackProps)
    (account₂ region₂ : String) (props₂ : Option StackProps)
    (ha : account₁ = account₂) (hr : region₁ = region₂) (hp : props₁ = props₂) :
    mkWebSocketApiStack account₁ region₁ props₁ = mkWebSocketApiStack account₂ region₂ props₂ := by
  rw [ha, hr, hp]

/-- C9 witness: two evaluations at a concrete identical input agree. -/
theorem C9_deterministic_witness :
    mkWebSocketApiStack "123456789012" "us-east-1" (some (StackProps.mk (some "prod") none none none))
      = mkWebSocketApiStack "123456789012" "us-east-1" (some (StackProps.mk (some "prod") none none none)) :=
  C9_deterministic "123456789012" "us-east-1" (some (StackProps.mk (some "prod") none none none))
    "123456789012" "us-east-1" (some (StackProps.mk (some "prod") none none none)) rfl rfl rfl

/-- C10: if `createVpc` is `false` but no usable `vpcId` is supplied
(absent or empty), the composition performs no lookup and silently
declares a brand-new VPC, identical to the one of the `createVpc = true`
case. -/
theorem C10_createVpc_false_without_vpcId (account region : String) (p : StackProps)
    (hc : p.createVpc = some false) (hv : p.vpcId = none ∨ p.vpcId = some "") :
    (mkWebSocketApiStack account region (some p)).vpc
        = VpcDef.newVpc ("websocket-api-vpc-" ++ envNameOf (some p)) 2 1
            newVpcSubnetConfiguration
      ∧ (mkWebSocketApiStack account region (some p)).vpc
        = (mkWebSocketApiStack account region (some { p with createVpc := some true })).vpc := by
  rcases hv with hv | hv <;>
    simp [mkWebSocketApiStack, truthyString, envNameOf, hc, hv]

/-- C10 witness: with `createVpc = false` and `vpcId` absent, the concrete
dev composition declares a fresh VPC, as in the `createVpc = true` case. -/
theorem C10_createVpc_false_without_vpcId_witness :
    (mkWebSocketApiStack "123456789012" "us-east-1"
        (some (StackProps.mk (some "dev") none (some false) none))).vpc
      = VpcDef.newVpc ("websocket-api-vpc-"
            ++ envNameOf (some (StackProps.mk (some "dev") none (some false) none))) 2 1
          newVpcSubnetConfiguration
    ∧ (mkWebSocketApiStack "123456789012" "us-east-1"
        (some (StackProps.mk (some "dev") none (some false) none))).vpc
      = (mkWebSocketApiStack "123456789012" "us-east-1"
          (some { StackProps.mk (some "dev") none (some false) none with
                    createVpc := some true })).vpc :=
  C10_createVpc_false_without_vpcId "123456789012" "us-east-1"
    (StackProps.mk (some "dev") none (some false) none) rfl (Or.inl rfl)

end WebSocketInfra
